import Mathlib

/-!
Verification of the admin session gate of the stachbitadmin dashboard.

The definitions below are a shallow embedding of the gate code in
`src/contexts/AuthContext.tsx` (the `checkAdminStatusDirectly`, `signIn`,
`signOut` functions and the `onAuthStateChange` callback of `AuthProvider`)
and of the route guard `AdminRoute` in `src/App.tsx`.  Network effects are
made explicit: the awaited result of the single HTTP GET that
`checkAdminStatusDirectly` performs is passed in as a `FetchOutcome`
value, and the identity-provider calls a gate operation performs are
recorded in an explicit trace.
-/

set_option autoImplicit false

namespace StachbitAdmin

/-- One row of the `user_profiles` read, projected to `select=role` as the
gate requests it.  The role claim is a JSON string or JSON null, hence
`Option String`. -/
structure ProfileRow where
  role : Option String
deriving DecidableEq, Repr

/-- Body of the HTTP response as seen after `response.json()`: either the
body is not valid JSON (so `response.json()` rejects and control moves to
the `catch` block of the source), or it parses to an array of rows. -/
inductive Body where
  | malformed : Body
  | rows : List ProfileRow → Body
deriving DecidableEq, Repr

/-- Outcome of the `fetch` of `checkAdminStatusDirectly`: the network call
itself rejects (caught by the source's `try`/`catch`), or a response
arrives with an `ok` flag (`response.ok`, i.e. status in 200–299) and a
body. -/
inductive FetchOutcome where
  | netError : FetchOutcome
  | response : Bool → Body → FetchOutcome
deriving DecidableEq, Repr

/-- Shallow embedding of `checkAdminStatusDirectly` (AuthContext.tsx,
lines 20–53).  The argument is the awaited result of its
`GET {url}/rest/v1/user_profiles?id=eq.{userId}&select=role` call.
The source returns `false` when `!response.ok`, returns
`data[0].role === 'admin'` when the parsed array is non-empty, returns
`false` on an empty array, and its `catch` turns every exception
(network rejection, JSON parse failure) into `false`. -/
def checkAdminStatusDirectly (out : FetchOutcome) : Bool :=
  match out with
  | .netError => false
  | .response ok body =>
    if !ok then
      false
    else
      match body with
      | .malformed => false
      | .rows [] => false
      | .rows (r :: _) => r.role == some "admin"

/-- Identity-provider user (`User` of supabase-js), projected to the id
the gate reads. -/
structure User where
  id : String
deriving DecidableEq, Repr

/-- Identity-provider session (`Session` of supabase-js), projected to the
fields the gate reads: the attached user (nullable) and the bearer access
token. -/
structure Session where
  user : Option User
  access_token : String
deriving DecidableEq, Repr

/-- Row of `user_profiles` as cached in the provider's `profile` state;
the gate only ever stores `null` here, so only the role claim is kept. -/
structure UserProfile where
  role : Option String
deriving DecidableEq, Repr

/-- React state of `AuthProvider`: the five `useState` cells `user`,
`profile`, `session`, `loading`, `isAdmin`.  The spec's tri-state verdict
reads off this state: Unknown when `loading`, Granted when `¬loading ∧
isAdmin`, Denied when `¬loading ∧ ¬isAdmin`. -/
structure GateState where
  user : Option User
  profile : Option UserProfile
  session : Option Session
  loading : Bool
  isAdmin : Bool
deriving DecidableEq, Repr

/-- Error surfaced by the identity provider from `signInWithPassword`. -/
structure AuthError where
  message : String
deriving DecidableEq, Repr

/-- Error value returned by the gate's `signIn`.  The three constructors
mirror the three distinct objects the source can place in `{error}`: the
provider's own error returned verbatim, `new Error('Access denied. Admin
privileges required.')`, and `new Error('No user returned')`. -/
inductive GateError where
  | provider : AuthError → GateError
  | accessDenied : GateError
  | noUser : GateError
deriving DecidableEq, Repr

/-- Message carried by a `GateError`, as the `Error.message` the UI sees. -/
def GateError.message : GateError → String
  | .provider e => e.message
  | .accessDenied => "Access denied. Admin privileges required."
  | .noUser => "No user returned"

/-- Result of `supabase.auth.signInWithPassword`: either an error, or
`data.user` / `data.session` (each nullable in the supabase-js types,
which is exactly what the source's `!authData.user || !authData.session`
re-checks). -/
inductive SignInResult where
  | err : AuthError → SignInResult
  | ok : Option User → Option Session → SignInResult
deriving DecidableEq, Repr

/-- One identity-provider / record-store call issued by a gate operation,
in the order performed. -/
inductive ProviderCall where
  | signInWithPassword : String → String → ProviderCall
  | verifyFetch : String → String → ProviderCall
  | signOutCall : ProviderCall
deriving DecidableEq, Repr

/-- Everything `signIn` produces: the `{error}` value it returns, the
provider state afterwards, the calls it made in order, and the provider's
session after the call (used to express that the non-admin path leaves no
active session at the provider). -/
structure SignInOutcome where
  error : Option GateError
  state : GateState
  calls : List ProviderCall
  providerSession : Option Session
deriving DecidableEq, Repr

/-- Shallow embedding of `signIn` (AuthContext.tsx, lines 138–180).
`authRes` is the awaited result of `signInWithPassword`, `out` the
awaited fetch outcome of the `checkAdminStatusDirectly` call on the
admin-check path, `s` the provider state at the time of the call and
`providerPrior` the provider-side session before the call.  On a
provider error the error is returned verbatim and nothing else runs; on
a null user or session the source returns `new Error('No user
returned')`; otherwise the admin check runs, and a `false` answer makes
the gate call `supabase.auth.signOut()` (revoking the fresh session) and
return the access-denied error, while a `true` answer sets
`isAdmin := true` and returns `{error: null}`. -/
def signIn (email password : String) (authRes : SignInResult)
    (out : FetchOutcome) (s : GateState) (providerPrior : Option Session) :
    SignInOutcome :=
  match authRes with
  | .err e =>
    { error := some (.provider e), state := s,
      calls := [.signInWithPassword email password],
      providerSession := providerPrior }
  | .ok u? sess? =>
    match u?, sess? with
    | some u, some sess =>
      let isAdminUser := checkAdminStatusDirectly out
      if !isAdminUser then
        { error := some .accessDenied, state := s,
          calls := [.signInWithPassword email password,
                    .verifyFetch u.id sess.access_token,
                    .signOutCall],
          providerSession := none }
      else
        { error := none, state := { s with isAdmin := true },
          calls := [.signInWithPassword email password,
                    .verifyFetch u.id sess.access_token],
          providerSession := some sess }
    | _, _ =>
      { error := some .noUser, state := s,
        calls := [.signInWithPassword email password],
        providerSession := providerPrior }

/-- Result of `supabase.auth.signOut()` as supabase-js resolves it: a
(possibly null) error value; the source ignores it. -/
structure SignOutResult where
  error : Option AuthError
deriving DecidableEq, Repr

/-- Shallow embedding of `signOut` (AuthContext.tsx, lines 182–188): it
awaits `supabase.auth.signOut()` (whose result `res` it ignores), then
sets `user`, `profile`, `session` to null and `isAdmin` to false;
`loading` is untouched.  The returned trace records that the provider
call comes first. -/
def signOut (res : SignOutResult) (s : GateState) :
    GateState × List ProviderCall :=
  match res with
  | _ =>
    ({ user := none, profile := none, session := none,
       loading := s.loading, isAdmin := false },
     [ProviderCall.signOutCall])

/-- Shallow embedding of the `onAuthStateChange` callback (AuthContext.tsx,
lines 109–129).  `event` is the event name string, `sess?` the session
delivered with it, `out` the fetch outcome of the admin re-check on the
`SIGNED_IN` path.  Every event first caches `session` and `user`; a
`SIGNED_IN` event with a user and a truthy (non-empty) access token
re-runs `checkAdminStatusDirectly` and stores the answer in `isAdmin`; a
`SIGNED_OUT` event clears `profile` and forces `isAdmin := false`; any
other event changes neither `profile` nor `isAdmin`.  Every path ends in
`setLoading(false)`.  The returned boolean records whether the
verification fetch was issued. -/
def handleAuthChange (event : String) (sess? : Option Session)
    (out : FetchOutcome) (s : GateState) : GateState × Bool :=
  let s1 := { s with session := sess?, user := sess?.bind (·.user) }
  if event == "SIGNED_IN" then
    match sess? with
    | some sess =>
      match sess.user with
      | some _ =>
        if sess.access_token ≠ "" then
          ({ s1 with isAdmin := checkAdminStatusDirectly out,
                     loading := false }, true)
        else
          ({ s1 with loading := false }, false)
      | none => ({ s1 with loading := false }, false)
    | none => ({ s1 with loading := false }, false)
  else if event == "SIGNED_OUT" then
    ({ s1 with profile := none, isAdmin := false, loading := false }, false)
  else
    ({ s1 with loading := false }, false)

/-- What the `AdminRoute` guard of App.tsx renders: the loading screen,
a redirect to `/login`, or the protected children. -/
inductive RenderOutcome where
  | loadingScreen : RenderOutcome
  | redirectLogin : RenderOutcome
  | children : RenderOutcome
deriving DecidableEq, Repr

/-- Shallow embedding of `AdminRoute` (App.tsx, lines 29–41): while
`loading` it renders the loading screen; then, unless a user is present
and `isAdmin` holds, it redirects to `/login`; only otherwise does it
render the protected children. -/
def AdminRoute (s : GateState) : RenderOutcome :=
  if s.loading then
    .loadingScreen
  else if s.user.isNone || !s.isAdmin then
    .redirectLogin
  else
    .children

end StachbitAdmin

namespace StachbitAdmin

/-- C1 counterexample: a successful (2xx, well-formed) read returning TWO
rows whose first row carries role "admin" makes `checkAdminStatusDirectly`
return `true`, although the claim says every multi-row result returns
`false`. -/
theorem checkAdmin_multirow_counterexample :
    checkAdminStatusDirectly
      (FetchOutcome.response true
        (Body.rows [⟨some "admin"⟩, ⟨some "user"⟩])) = true ∧
    [ProfileRow.mk (some "admin"), ProfileRow.mk (some "user")].length ≠ 1 := by
  constructor
  · rfl
  · decide

/-- C1 (amended): `checkAdminStatusDirectly` returns `true` iff the read
yields a 2xx response whose body parses to a non-empty array whose FIRST
row's role claim is exactly the string "admin"; every empty result,
network error, malformed body and non-success status yields `false`. -/
theorem checkAdmin_true_iff (out : FetchOutcome) :
    checkAdminStatusDirectly out = true ↔
      ∃ r rs, out = FetchOutcome.response true (Body.rows (r :: rs)) ∧
        r.role = some "admin" := by
  constructor
  · intro h
    match out with
    | .netError => simp [checkAdminStatusDirectly] at h
    | .response ok body =>
      match ok, body with
      | false, _ => simp [checkAdminStatusDirectly] at h
      | true, .malformed => simp [checkAdminStatusDirectly] at h
      | true, .rows [] => simp [checkAdminStatusDirectly] at h
      | true, .rows (r :: rs) =>
        refine ⟨r, rs, rfl, ?_⟩
        simpa [checkAdminStatusDirectly] using h
  · rintro ⟨r, rs, rfl, hr⟩
    simp [checkAdminStatusDirectly, hr]

/-- C2: `checkAdminStatusDirectly` is fail-closed.  On a network
exception, on any non-2xx response, on a malformed JSON body and on an
empty result array it resolves to `false` — never `true`; being a total
Lean function of the fetch outcome, it never raises (the source wraps the
whole body in `try`/`catch` and every branch returns a boolean). -/
theorem checkAdmin_fail_closed :
    checkAdminStatusDirectly FetchOutcome.netError = false ∧
    (∀ body : Body,
      checkAdminStatusDirectly (FetchOutcome.response false body) = false) ∧
    checkAdminStatusDirectly (FetchOutcome.response true Body.malformed) = false ∧
    checkAdminStatusDirectly (FetchOutcome.response true (Body.rows [])) = false := by
  refine ⟨rfl, ?_, rfl, rfl⟩
  intro body
  rfl

/-- C3: whenever the read yields exactly one row whose role claim is any
value other than the literal string "admin" — including JSON null, the
empty string, "Admin", "ADMIN" and "user" — `checkAdminStatusDirectly`
returns `false`: the comparison is `===` against "admin", case-sensitive
and without normalization. -/
theorem checkAdmin_single_row_non_admin (role : Option String)
    (h : role ≠ some "admin") :
    checkAdminStatusDirectly
      (FetchOutcome.response true (Body.rows [⟨role⟩])) = false := by
  simp [checkAdminStatusDirectly, h]

/-- Witness for C3 at the concrete role value "Admin" (wrong case). -/
theorem checkAdmin_single_row_non_admin_witness :
    checkAdminStatusDirectly
      (FetchOutcome.response true (Body.rows [⟨some "Admin"⟩])) = false :=
  checkAdmin_single_row_non_admin (some "Admin") (by decide)

/-- C4: when the credentials are accepted (user and session present) but
the admin verification answers `false`, `signIn` returns the domain error
"Access denied. Admin privileges required." — structurally distinct from
any provider (credential) error — and its trace ends with the provider
sign-out call, leaving no active provider session; the gate state is left
untouched, so `isAdmin` is never set true on this path and the verdict
stays Denied. -/
theorem signIn_non_admin (email password : String) (u : User) (sess : Session)
    (out : FetchOutcome) (s : GateState) (p : Option Session)
    (h : checkAdminStatusDirectly out = false) :
    (signIn email password (.ok (some u) (some sess)) out s p).error =
      some GateError.accessDenied ∧
    GateError.accessDenied.message = "Access denied. Admin privileges required." ∧
    (∀ e : AuthError, GateError.accessDenied ≠ GateError.provider e) ∧
    (signIn email password (.ok (some u) (some sess)) out s p).calls =
      [.signInWithPassword email password,
       .verifyFetch u.id sess.access_token, .signOutCall] ∧
    (signIn email password (.ok (some u) (some sess)) out s p).providerSession =
      none ∧
    (signIn email password (.ok (some u) (some sess)) out s p).state = s := by
  refine ⟨?_, rfl, ?_, ?_, ?_, ?_⟩ <;> simp [signIn, h, GateError.message]

/-- Witness for C4 at a concrete non-admin verification outcome. -/
theorem signIn_non_admin_witness :
    (signIn "a@b.c" "pw" (SignInResult.ok (some ⟨"u1"⟩) (some ⟨some ⟨"u1"⟩, "tok"⟩))
      FetchOutcome.netError ⟨none, none, none, false, false⟩ none).error =
      some GateError.accessDenied :=
  (signIn_non_admin "a@b.c" "pw" ⟨"u1"⟩ ⟨some ⟨"u1"⟩, "tok"⟩
    FetchOutcome.netError ⟨none, none, none, false, false⟩ none rfl).1

/-- C5: when the credentials are accepted and the admin verification
answers `true`, `signIn` returns `{error: null}` and sets `isAdmin :=
true` (verdict Granted); moreover no other `signIn` path sets `isAdmin`:
whenever the post-state has `isAdmin = true`, either it was already true
before the call, or the call took the verified-admin path and returned
`{error: null}`. -/
theorem signIn_admin_grants (email password : String) (u : User) (sess : Session)
    (out : FetchOutcome) (s : GateState) (p : Option Session)
    (h : checkAdminStatusDirectly out = true) :
    ((signIn email password (.ok (some u) (some sess)) out s p).error = none ∧
     (signIn email password (.ok (some u) (some sess)) out s p).state =
       { s with isAdmin := true }) ∧
    (∀ (ar : SignInResult) (o : FetchOutcome),
      (signIn email password ar o s p).state.isAdmin = true →
        s.isAdmin = true ∨
        ((signIn email password ar o s p).error = none ∧
         checkAdminStatusDirectly o = true)) := by
  refine ⟨⟨?_, ?_⟩, ?_⟩
  · simp [signIn, h]
  · simp [signIn, h]
  · intro ar o hAdmin
    match ar with
    | .err e => exact Or.inl (by simpa [signIn] using hAdmin)
    | .ok none sess? =>
      cases sess? <;> exact Or.inl (by simpa [signIn] using hAdmin)
    | .ok (some u2) none => exact Or.inl (by simpa [signIn] using hAdmin)
    | .ok (some u2) (some sess2) =>
      by_cases hc : checkAdminStatusDirectly o = true
      · exact Or.inr ⟨by simp [signIn, hc], hc⟩
      · have hc' : checkAdminStatusDirectly o = false := by
          simpa using hc
        exact Or.inl (by simpa [signIn, hc'] using hAdmin)

/-- Witness for C5 at a concrete single-row admin read. -/
theorem signIn_admin_grants_witness :
    (signIn "a@b.c" "pw" (SignInResult.ok (some ⟨"u1"⟩) (some ⟨some ⟨"u1"⟩, "tok"⟩))
      (FetchOutcome.response true (Body.rows [⟨some "admin"⟩]))
      ⟨none, none, none, false, false⟩ none).error = none :=
  ((signIn_admin_grants "a@b.c" "pw" ⟨"u1"⟩ ⟨some ⟨"u1"⟩, "tok"⟩
    (FetchOutcome.response true (Body.rows [⟨some "admin"⟩]))
    ⟨none, none, none, false, false⟩ none rfl).1).1

/-- C6: the route guard renders the protected children only in a Granted
state.  While the verdict is Unknown (`loading = true`) it renders the
loading screen; in a Denied state (`loading = false`, `isAdmin = false`)
it redirects to the login route; and whenever it does render the
children, the state satisfies `loading = false` and `isAdmin = true`. -/
theorem adminRoute_only_granted (s : GateState) :
    (s.loading = true → AdminRoute s = RenderOutcome.loadingScreen) ∧
    (s.loading = false → s.isAdmin = false →
      AdminRoute s = RenderOutcome.redirectLogin) ∧
    (AdminRoute s = RenderOutcome.children →
      s.loading = false ∧ s.isAdmin = true) := by
  refine ⟨?_, ?_, ?_⟩
  · intro h
    simp [AdminRoute, h]
  · intro h1 h2
    simp [AdminRoute, h1, h2]
  · intro h
    cases hl : s.loading with
    | true => exact absurd h (by simp [AdminRoute, hl])
    | false =>
      cases ha : s.isAdmin with
      | false => exact absurd h (by simp [AdminRoute, hl, ha])
      | true => exact ⟨rfl, rfl⟩

/-- Witness for C6 at a concrete Unknown-verdict state. -/
theorem adminRoute_only_granted_witness :
    AdminRoute ⟨none, none, none, true, false⟩ = RenderOutcome.loadingScreen :=
  (adminRoute_only_granted ⟨none, none, none, true, false⟩).1 rfl

/-- C7: when the identity provider rejects the credentials, `signIn`
returns that provider error verbatim, its call trace is exactly the one
`signInWithPassword` call (so the verification read is never issued), and
the gate state — hence the verdict — is unchanged. -/
theorem signIn_credential_error (email password : String) (e : AuthError)
    (out : FetchOutcome) (s : GateState) (p : Option Session) :
    (signIn email password (.err e) out s p).error = some (GateError.provider e) ∧
    (signIn email password (.err e) out s p).calls =
      [ProviderCall.signInWithPassword email password] ∧
    (signIn email password (.err e) out s p).state = s ∧
    (signIn email password (.err e) out s p).providerSession = p :=
  ⟨rfl, rfl, rfl, rfl⟩

/-- C8: behavior of the `onAuthStateChange` callback.  A `SIGNED_OUT`
event forces `isAdmin := false` regardless of the prior state and issues
no verification; a `SIGNED_IN` event whose session carries a user and a
non-empty access token issues the verification read and stores its
answer; every other event caches the delivered session and user but
issues no verification and leaves `isAdmin` unchanged. -/
theorem authChange_events (s : GateState) (sess : Session)
    (sessOpt : Option Session) (out : FetchOutcome) (ev : String) :
    ((handleAuthChange "SIGNED_OUT" sessOpt out s).1.isAdmin = false ∧
     (handleAuthChange "SIGNED_OUT" sessOpt out s).2 = false) ∧
    (∀ u : User, sess.user = some u → sess.access_token ≠ "" →
      (handleAuthChange "SIGNED_IN" (some sess) out s).2 = true ∧
      (handleAuthChange "SIGNED_IN" (some sess) out s).1.isAdmin =
        checkAdminStatusDirectly out) ∧
    (ev ≠ "SIGNED_IN" → ev ≠ "SIGNED_OUT" →
      (handleAuthChange ev sessOpt out s).2 = false ∧
      (handleAuthChange ev sessOpt out s).1.isAdmin = s.isAdmin ∧
      (handleAuthChange ev sessOpt out s).1.session = sessOpt ∧
      (handleAuthChange ev sessOpt out s).1.user = sessOpt.bind (·.user)) := by
  refine ⟨?_, ?_, ?_⟩
  · constructor <;> simp [handleAuthChange]
  · intro u hu ht
    constructor <;> simp [handleAuthChange, hu, ht]
  · intro h1 h2
    refine ⟨?_, ?_, ?_, ?_⟩ <;> simp [handleAuthChange, h1, h2]

/-- Witness for C8 at a concrete token-refresh event on a Granted state. -/
theorem authChange_events_witness :
    (handleAuthChange "TOKEN_REFRESHED" none FetchOutcome.netError
      ⟨none, none, none, false, true⟩).1.isAdmin = true :=
  ((authChange_events ⟨none, none, none, false, true⟩ ⟨none, ""⟩ none
    FetchOutcome.netError "TOKEN_REFRESHED").2.2 (by decide) (by decide)).2.1

/-- C9: `signOut` first issues the provider sign-out call (the single
entry of its trace) and then resets `user`, `profile`, `session` to null
and `isAdmin` to false, for every possible provider result — the result
value is ignored, so success and error behave identically. -/
theorem signOut_resets (res : SignOutResult) (s : GateState) :
    (signOut res s).1 = { user := none, profile := none, session := none,
                          loading := s.loading, isAdmin := false } ∧
    (signOut res s).2 = [ProviderCall.signOutCall] :=
  ⟨rfl, rfl⟩

/-- C10: when the provider reports success but delivers a null user or a
null session, `signIn` returns the error "No user returned", issues no
verification read (its trace is the single `signInWithPassword` call) and
leaves the gate state — hence the verdict — unchanged. -/
theorem signIn_no_user (email password : String) (u? : Option User)
    (sess? : Option Session) (out : FetchOutcome) (s : GateState)
    (p : Option Session)
    (h : u? = none ∨ sess? = none) :
    (signIn email password (.ok u? sess?) out s p).error = some GateError.noUser ∧
    GateError.noUser.message = "No user returned" ∧
    (signIn email password (.ok u? sess?) out s p).calls =
      [ProviderCall.signInWithPassword email password] ∧
    (signIn email password (.ok u? sess?) out s p).state = s := by
  rcases h with h | h
  · subst h
    cases sess? <;> exact ⟨rfl, rfl, rfl, rfl⟩
  · subst h
    cases u? <;> exact ⟨rfl, rfl, rfl, rfl⟩

/-- Witness for C10 at a concrete null user and session. -/
theorem signIn_no_user_witness :
    (signIn "a@b.c" "pw" (SignInResult.ok none none) FetchOutcome.netError
      ⟨none, none, none, false, false⟩ none).error = some GateError.noUser :=
  (signIn_no_user "a@b.c" "pw" none none FetchOutcome.netError
    ⟨none, none, none, false, false⟩ none (Or.inl rfl)).1

end StachbitAdmin
